import Mathlib

/-!
Shallow embedding of the ffcv-DomainBed repository's own code:

* `src/domainbed/datasets/ffcv_transforms.py` — the three custom operators
  `ColorJitter`, `RandomGrayscale`, `ResizedCrop` plugged into the ffcv
  pipeline (parameter validation, the jitted per-batch kernels, state and
  memory declaration);
* `src/ffcv_writers.py` — the `write` routine that serializes each
  environment of a multi-environment dataset into one `.beton` container.

Machine integers (uint8 pixels) are modelled as `ℕ` values in `0..255`;
the float64 arithmetic of the numpy kernels is modelled exactly over a
linear ordered field (instantiated at `ℚ` for evaluation and at `ℝ` where
the code computes `cos`, `sin`, `sqrt`).  `astype(np.uint8)` applied to a
nonnegative float is truncation toward zero, i.e. `Int.floor` followed by
`Int.toNat`.  The host framework (ffcv) itself is out of scope: its
`fast_crop` helpers are abstract parameters, its `State`, `AllocationQuery`
and compiled-callable conventions are modelled by plain structures.
-/

namespace FFCVDB

/-- A pixel of a raw RGB uint8 image: (red, green, blue). -/
abbrev Pixel := ℕ × ℕ × ℕ

/-- A raw image of height `h` and width `w` (numpy shape `(h, w, 3)`). -/
abbrev Image (h w : ℕ) := Fin h → Fin w → Pixel

variable {α : Type} [LinearOrderedField α] [FloorRing α] {h w s : ℕ}

/-- numpy `x.clip(0, 255).astype(np.uint8)` on a scalar: clamp to
`[0, 255]`, then truncate toward zero (equal to the floor once clamped
nonnegative). -/
def castU8 (x : α) : ℕ := (Int.floor (max 0 (min x 255))).toNat

/-- The kernel's inner `blend`: `(ratio*img1 + (1-ratio)*img2).clip(0,255)
.astype(img1.dtype)`, on one channel value. -/
def blendVal (v o r : α) : ℕ := castU8 (r * v + (1 - r) * o)

/-- `blend` applied to one pixel, the second operand given per channel. -/
def blendPix (p : Pixel) (o : α × α × α) (r : α) : Pixel :=
  (blendVal (p.1 : α) o.1 r, blendVal (p.2.1 : α) o.2.1 r, blendVal (p.2.2 : α) o.2.2 r)

/-- The grayscale (luma) value `0.2989*R + 0.5870*G + 0.1140*B` of one
pixel, before any cast.  The contrast branch writes the coefficients as
`0.2989, 0.5870, 0.1140` and the saturation / grayscale branches as
`0.2989, 0.587, 0.114`: the same three rationals. -/
def lumaVal (p : Pixel) : α :=
  (2989 / 10000) * (p.1 : α) + (5870 / 10000) * (p.2.1 : α) + (1140 / 10000) * (p.2.2 : α)

/-- `(0.2989*r + 0.587*g + 0.114*b).astype(images[i].dtype)`: the luma of a
pixel truncated to uint8.  The value of the exact-arithmetic model does not
depend on the ambient field, so it is computed in `ℚ`. -/
def lumaCast (p : Pixel) : ℕ := (Int.floor (lumaVal (α := ℚ) p)).toNat

/-- Brightness branch: `images[i] = blend(images[i], 0, ratio_brightness)`. -/
def brightnessOp (r : α) (u : Image h w) : Image h w :=
  fun i j => blendPix (u i j) (0, 0, 0) r

/-- `gray.mean()` of the contrast branch: the scalar mean of the grayscale
image over all `h * w` pixels. -/
def contrastMean (u : Image h w) : α :=
  (∑ i, ∑ j, lumaVal (u i j)) / ((h : α) * (w : α))

/-- Contrast branch: `images[i] = blend(images[i], gray.mean(),
ratio_contrast)`. -/
def contrastOp (r : α) (u : Image h w) : Image h w :=
  fun i j => blendPix (u i j) (contrastMean u, contrastMean u, contrastMean u) r

/-- Saturation branch: `l_img` is the uint8-cast luma, `l_img3` replicates
it over the three channels, and `images[i] = blend(images[i], l_img3,
ratio_saturation)`. -/
def saturationOp (r : α) (u : Image h w) : Image h w :=
  fun i j =>
    blendPix (u i j) ((lumaCast (u i j) : α), (lumaCast (u i j) : α), (lumaCast (u i j) : α)) r

/-- The 3×3 `hue_rotation_matrix` of the hue branch, as a function of the
already-computed `cosA`, `sinA` and `np.sqrt(1./3.)`. -/
def hueM (cA sA s13 : α) : Fin 3 → Fin 3 → α :=
  ![![cA + (1 - cA) / 3, 1 / 3 * (1 - cA) - s13 * sA, 1 / 3 * (1 - cA) + s13 * sA],
    ![1 / 3 * (1 - cA) + s13 * sA, cA + 1 / 3 * (1 - cA), 1 / 3 * (1 - cA) - s13 * sA],
    ![1 / 3 * (1 - cA) - s13 * sA, 1 / 3 * (1 - cA) + s13 * sA, cA + 1 / 3 * (1 - cA)]]

/-- Hue branch: `img = images[i] / 255.0`, every pixel is replaced by the
matrix-vector product with `hue_rotation_matrix` (each pixel reads its
`r, g, b` before writing, so pixels are independent), and `images[i] =
np.asarray(np.clip(img * 255., 0, 255), dtype=np.uint8)`. -/
def hueOp (cA sA s13 : α) (u : Image h w) : Image h w :=
  fun i j =>
    (castU8 (255 * (((u i j).1 : α) / 255 * hueM cA sA s13 0 0
        + ((u i j).2.1 : α) / 255 * hueM cA sA s13 0 1
        + ((u i j).2.2 : α) / 255 * hueM cA sA s13 0 2)),
     castU8 (255 * (((u i j).1 : α) / 255 * hueM cA sA s13 1 0
        + ((u i j).2.1 : α) / 255 * hueM cA sA s13 1 1
        + ((u i j).2.2 : α) / 255 * hueM cA sA s13 1 2)),
     castU8 (255 * (((u i j).1 : α) / 255 * hueM cA sA s13 2 0
        + ((u i j).2.1 : α) / 255 * hueM cA sA s13 2 1
        + ((u i j).2.2 : α) / 255 * hueM cA sA s13 2 2)))

/-- The `ColorJitter` operator after `__init__`: each parameter is either
`None` (that jitter disabled) or the `[min, max]` range returned by
`_check_input`. -/
structure ColorJitter where
  brightness : Option (ℚ × ℚ)
  contrast : Option (ℚ × ℚ)
  saturation : Option (ℚ × ℚ)
  hue : Option (ℚ × ℚ)

/-- The random values one image's pass through the `color_jitter` kernel
consumes: the three uniform blend ratios, and for the hue branch the
computed `cosA = cos(hue_factor*2*pi)`, `sinA = sin(hue_factor*2*pi)` and
`np.sqrt(1./3.)`. -/
structure JitterDraws (α : Type) where
  rBright : α
  rContrast : α
  rSat : α
  cosA : α
  sinA : α
  s13 : α

/-- One arm of the kernel's `if fn_idx[fn_id] == 0 and apply_brightness:
... elif ...` chain: apply operation number `k` to the image when that
jitter is enabled, else leave the image alone. -/
def applyJitterOp (cj : ColorJitter) (d : JitterDraws α) (u : Image h w) (k : ℕ) : Image h w :=
  if k = 0 ∧ cj.brightness.isSome then brightnessOp d.rBright u
  else if k = 1 ∧ cj.contrast.isSome then contrastOp d.rContrast u
  else if k = 2 ∧ cj.saturation.isSome then saturationOp d.rSat u
  else if k = 3 ∧ cj.hue.isSome then hueOp d.cosA d.sinA d.s13 u
  else u

/-- One image's pass through the kernel: the four operations tried in the
order of `fn_idx = np.random.permutation(4)`. -/
def colorJitterImage (cj : ColorJitter) (d : JitterDraws α) (perm : List ℕ)
    (u : Image h w) : Image h w :=
  perm.foldl (applyJitterOp cj d) u

/-- The stream of random values the batch kernel consumes: image `i` gets
permutation `perm i` and draws `draws i`. -/
structure JitterRng (α : Type) where
  perm : ℕ → List ℕ
  draws : ℕ → JitterDraws α

/-- `List.map` with the element's batch index, mirroring the kernel's
`for i in my_range(images.shape[0])` loop. -/
def idxMap {β γ : Type} (f : ℕ → β → γ) : ℕ → List β → List γ
  | _, [] => []
  | n, x :: xs => f n x :: idxMap f (n + 1) xs

/-- The emitted `color_jitter(images, *_)` kernel: it transforms each image
of `images` in place and returns `images`; the extra (allocated-memory)
argument is ignored. -/
def color_jitter (cj : ColorJitter) (g : JitterRng α)
    (images : List (Image h w)) (dst : List (Image h w)) : List (Image h w) :=
  idxMap (fun i u => colorJitterImage cj (g.draws i) (g.perm i) u) 0 images

/-- The `RandomGrayscale` operator: `p` is the conversion probability. -/
structure RandomGrayscale where
  p : ℚ

/-- The grayscale conversion of one image: `l_img` (uint8-cast luma)
broadcast over the three channels. -/
def grayscaleImage (u : Image h w) : Image h w :=
  fun i j => (lumaCast (u i j), lumaCast (u i j), lumaCast (u i j))

/-- The emitted `rgb_to_grayscale(images, *_)` kernel: image `i` is
converted exactly when `np.random.rand(images.shape[0])[i] < p`; the batch
is mutated in place and returned, the extra argument ignored. -/
def rgb_to_grayscale (g : RandomGrayscale) (rand : ℕ → ℚ)
    (images : List (Image h w)) (dst : List (Image h w)) : List (Image h w) :=
  idxMap (fun i u => if rand i < g.p then grayscaleImage u else u) 0 images

/-- What `generate_code` hands the host framework: the compiled callable,
and whether the operator set `is_parallel` on it (the framework's default
when unset is `False`). -/
structure TransformCode (K : Type) where
  kernel : K
  is_parallel : Bool

/-- `ColorJitter.generate_code`: emits `color_jitter` and sets
`color_jitter.is_parallel = True`. -/
def ColorJitter.generate_code (cj : ColorJitter) :
    TransformCode (JitterRng α → List (Image h w) → List (Image h w) → List (Image h w)) :=
  ⟨fun g images dst => color_jitter cj g images dst, true⟩

/-- `RandomGrayscale.generate_code`: emits `rgb_to_grayscale` and sets
`rgb_to_grayscale.is_parallel = True`. -/
def RandomGrayscale.generate_code (g : RandomGrayscale) :
    TransformCode ((ℕ → ℚ) → List (Image h w) → List (Image h w) → List (Image h w)) :=
  ⟨fun rand images dst => rgb_to_grayscale g rand images dst, true⟩

/-- The fields of ffcv's pipeline `State` the repository touches
(`jit_mode`, `shape`, `dtype`) plus one untouched stand-in field
(`device`). -/
structure State where
  jit_mode : Bool
  device : ℕ
  shape : List ℕ
  dtype : String

/-- ffcv's `AllocationQuery(shape, dtype)`: one requested allocation. -/
structure AllocationQuery where
  shape : List ℕ
  dtype : String

/-- `ColorJitter.declare_state_and_memory`: `(replace(previous_state,
jit_mode=True), AllocationQuery(shape=previous_state.shape,
dtype=previous_state.dtype))`. -/
def ColorJitter.declare_state_and_memory (cj : ColorJitter) (previous_state : State) :
    State × AllocationQuery :=
  ({ previous_state with jit_mode := true },
   ⟨previous_state.shape, previous_state.dtype⟩)

/-- `RandomGrayscale.declare_state_and_memory`: `(replace(previous_state,
jit_mode=True), AllocationQuery(previous_state.shape,
previous_state.dtype))`. -/
def RandomGrayscale.declare_state_and_memory (g : RandomGrayscale) (previous_state : State) :
    State × AllocationQuery :=
  ({ previous_state with jit_mode := true },
   ⟨previous_state.shape, previous_state.dtype⟩)

/-- The `ResizedCrop` operator: output side `size`, center-crop `ratio`. -/
structure ResizedCrop where
  size : ℕ
  ratio : ℚ

/-- `ResizedCrop.generate_code`: the emitted `resized_crop(im, dst)` calls
the host framework's `fast_crop.get_center_crop(im.shape[0], im.shape[1],
ratio)`, hands the window `[i, i+h) × [j, j+w)` to
`fast_crop.resize_crop(im, i, i+h, j, j+w, dst)` and returns `dst` as
mutated by it.  Both `fast_crop` helpers belong to ffcv, not to this
repository, so they are abstract parameters here (`resize_crop` returns
the destination buffer it filled).  The source never sets `is_parallel`
on `resized_crop`, so the framework default `False` stands. -/
def ResizedCrop.generate_code (rc : ResizedCrop)
    (get_center_crop : ℕ → ℕ → ℚ → ℕ × ℕ × ℕ × ℕ)
    (resize_crop : Image h w → ℕ → ℕ → ℕ → ℕ → Image s s → Image s s) :
    TransformCode (Image h w → Image s s → Image s s) :=
  ⟨fun im dst =>
      match get_center_crop h w rc.ratio with
      | (i, j, hh, ww) => resize_crop im i (i + hh) j (j + ww) dst,
   false⟩

/-- `ResizedCrop.declare_state_and_memory`: `assert previous_state.jit_mode`
(modelled as `none` on failure), then `(replace(previous_state,
shape=(size, size, 3)), AllocationQuery((size, size, 3),
dtype=np.dtype('uint8')))`. -/
def ResizedCrop.declare_state_and_memory (rc : ResizedCrop) (previous_state : State) :
    Option (State × AllocationQuery) :=
  if previous_state.jit_mode then
    some ({ previous_state with shape := [rc.size, rc.size, 3] },
      ⟨[rc.size, rc.size, 3], "uint8"⟩)
  else none

/-- A value passed to `ColorJitter.__init__`: a single number, a length-2
tuple/list of numbers, or anything else. -/
inductive JitterArg where
  | num (x : ℚ)
  | pair (a b : ℚ)
  | other
deriving DecidableEq

/-- The two exceptions `_check_input` can raise. -/
inductive CheckErr where
  | valueError
  | typeError
deriving DecidableEq

/-- `ColorJitter._check_input(value, name, center, bound,
clip_first_on_zero)`.  `highBound = none` models `float("inf")`.  A single
number `x < 0` raises `ValueError`; otherwise the range is `[center - x,
center + x]`, the lower end clamped at `0` when `clip_first_on_zero`.  A
pair must satisfy `bound[0] <= value[0] <= value[1] <= bound[1]` or raise
`ValueError`; any other value raises `TypeError`.  A resulting range with
both ends equal to `center` is replaced by `None`. -/
def check_input (value : JitterArg) (center lowBound : ℚ) (highBound : Option ℚ)
    (clip_first_on_zero : Bool) : Except CheckErr (Option (ℚ × ℚ)) :=
  match value with
  | .num x =>
    if x < 0 then .error .valueError
    else
      let lo := if clip_first_on_zero then max (center - x) 0 else center - x
      let hi := center + x
      .ok (if lo = center ∧ hi = center then none else some (lo, hi))
  | .pair a b =>
    let inBound : Bool :=
      match highBound with
      | none => decide (lowBound ≤ a ∧ a ≤ b)
      | some top => decide (lowBound ≤ a ∧ a ≤ b ∧ b ≤ top)
    if inBound then .ok (if a = center ∧ b = center then none else some (a, b))
    else .error .valueError
  | .other => .error .typeError

/-- `ColorJitter.__init__(brightness, contrast, saturation, hue)`:
brightness, contrast and saturation are checked with `center=1`,
`bound=(0, inf)`, `clip_first_on_zero=True`; hue with `center=0`,
`bound=(-0.5, 0.5)`, `clip_first_on_zero=False`. -/
def ColorJitter.init (brightness contrast saturation hue : JitterArg) :
    Except CheckErr ColorJitter := do
  let b ← check_input brightness 1 0 none true
  let c ← check_input contrast 1 0 none true
  let sa ← check_input saturation 1 0 none true
  let hu ← check_input hue 0 (-(1 / 2)) (some (1 / 2)) false
  return ⟨b, c, sa, hu⟩

/-- One environment dataset of a DomainBed multi-environment dataset: its
`root` directory and (abstractly) its indexed samples. -/
structure EnvDataset where
  root : String
  samples : List (ℕ × ℕ)

/-- The selected dataset of `ffcv_writers.write`: parallel lists
`environments` (names) and `datasets` (per-environment datasets). -/
structure MultiEnvDataset where
  environments : List String
  datasets : List EnvDataset

/-- The two ffcv field kinds the writer declares. -/
inductive FieldKind where
  | RGBImageField
  | IntField
deriving DecidableEq

/-- `DatasetWriter(fname, fields)` as constructed by `write`. -/
structure DatasetWriter where
  fname : String
  fields : List (String × FieldKind)

/-- One `writer.from_indexed_dataset(ds)` call: the writer it went
through and the samples it serialized. -/
structure WriteAction where
  writer : DatasetWriter
  serialized : List (ℕ × ℕ)

/-- `ffcv_writers.write`: for each `(env, ds)` pair of
`zip(dataset.environments, dataset.datasets)`, build
`DatasetWriter(Path(ds.root)/f'{env}.beton', {'image': RGBImageField(),
'label': IntField()})` and serialize `ds` through
`from_indexed_dataset`. -/
def write (d : MultiEnvDataset) : List WriteAction :=
  (d.environments.zip d.datasets).map (fun ed =>
    ⟨⟨ed.2.root ++ "/" ++ ed.1 ++ ".beton",
      [("image", FieldKind.RGBImageField), ("label", FieldKind.IntField)]⟩,
     ed.2.samples⟩)

/-- Modelled from the spec claim's words, for comparison with the code: a
saturation jitter that blends the image with the exact (never truncated)
per-pixel grayscale value `0.2989*R + 0.5870*G + 0.1140*B` replicated over
the three channels.  The code (`saturationOp`) instead truncates the
grayscale to uint8 before blending. -/
def saturationBlendSpec (r : α) (u : Image h w) : Image h w :=
  fun i j => blendPix (u i j) (lumaVal (u i j), lumaVal (u i j), lumaVal (u i j)) r

/-- A uint8 channel triple: every channel value is at most 255. -/
def pixLe255 (p : Pixel) : Prop := p.1 ≤ 255 ∧ p.2.1 ≤ 255 ∧ p.2.2 ≤ 255

/-- All pixels of the image are valid uint8 triples. -/
def imageLe255 (u : Image h w) : Prop := ∀ i j, pixLe255 (u i j)

/-- The hue rotation matrix as the kernel computes it for a drawn
`hue_factor`: `hueM` at `cos(hue_factor*2*pi)`, `sin(hue_factor*2*pi)` and
`sqrt(1/3)`.  Noncomputable only because exact real `cos`/`sin` are; the
code evaluates them in floating point. -/
noncomputable def hueMatrixAt (hf : ℝ) : Fin 3 → Fin 3 → ℝ :=
  hueM (Real.cos (hf * (2 * Real.pi))) (Real.sin (hf * (2 * Real.pi))) (Real.sqrt (1 / 3))

/-! Helper lemmas. -/

theorem floor_toNat_eval (x : ℚ) (n : ℕ) (ha : (n : ℚ) ≤ x) (hb : x < n + 1) :
    (Int.floor x).toNat = n := by
  have hz : Int.floor x = (n : ℤ) := by
    rw [Int.floor_eq_iff]
    exact ⟨by exact_mod_cast ha, by push_cast; exact hb⟩
  rw [hz, Int.toNat_natCast]

theorem castU8_eval (x : ℚ) (n : ℕ) (h0 : 0 ≤ x) (h255 : x ≤ 255)
    (ha : (n : ℚ) ≤ x) (hb : x < n + 1) : castU8 x = n := by
  unfold castU8
  rw [min_eq_left h255, max_eq_right h0]
  exact floor_toNat_eval x n ha hb

theorem idxMap_length {β γ : Type} (f : ℕ → β → γ) (n : ℕ) (l : List β) :
    (idxMap f n l).length = l.length := by
  induction l generalizing n with
  | nil => rfl
  | cons x xs ih => simp [idxMap, ih]

theorem idxMap_getElem? {β γ : Type} (f : ℕ → β → γ) (n k : ℕ) (l : List β) :
    (idxMap f n l)[k]? = (l[k]?).map (f (n + k)) := by
  induction l generalizing n k with
  | nil => simp [idxMap]
  | cons x xs ih =>
    cases k with
    | zero => simp [idxMap]
    | succ m =>
      have hnm : n + 1 + m = n + (m + 1) := by omega
      simp only [idxMap, List.getElem?_cons_succ, ih (n + 1) m, hnm]

theorem mem_idxMap {β γ : Type} (f : ℕ → β → γ) (P : γ → Prop)
    (l : List β) (hP : ∀ i x, x ∈ l → P (f i x)) :
    ∀ n, ∀ y ∈ idxMap f n l, P y := by
  induction l with
  | nil => intro n y hy; cases hy
  | cons x xs ih =>
    intro n y hy
    rcases List.mem_cons.mp hy with hy1 | hy1
    · subst hy1
      exact hP n x (List.mem_cons_self x xs)
    · exact ih (fun i z hz => hP i z (List.mem_cons_of_mem x hz)) (n + 1) y hy1

theorem castU8_le255 (x : ℚ) : castU8 x ≤ 255 := by
  unfold castU8
  have h1 : max 0 (min x 255) ≤ (255 : ℚ) := max_le (by norm_num) (min_le_right x 255)
  have h2 : Int.floor (max 0 (min x 255)) ≤ (255 : ℤ) := by
    have hmono := Int.floor_le_floor h1
    simpa using hmono
  omega

theorem lumaCast_le255 (p : Pixel) (hp : pixLe255 p) : lumaCast p ≤ 255 := by
  unfold lumaCast
  have h1 : ((p.1 : ℚ)) ≤ 255 := by exact_mod_cast hp.1
  have h2 : ((p.2.1 : ℚ)) ≤ 255 := by exact_mod_cast hp.2.1
  have h3 : ((p.2.2 : ℚ)) ≤ 255 := by exact_mod_cast hp.2.2
  have hval : lumaVal (α := ℚ) p ≤ 255 := by
    unfold lumaVal
    nlinarith
  have h4 : Int.floor (lumaVal (α := ℚ) p) ≤ (255 : ℤ) := by
    have hmono := Int.floor_le_floor hval
    simpa using hmono
  omega

theorem blendPix_le255 (p : Pixel) (o : ℚ × ℚ × ℚ) (r : ℚ) : pixLe255 (blendPix p o r) :=
  ⟨castU8_le255 _, castU8_le255 _, castU8_le255 _⟩

theorem applyJitterOp_le255 (cj : ColorJitter) (d : JitterDraws ℚ)
    (u : Image h w) (k : ℕ) (hu : imageLe255 u) : imageLe255 (applyJitterOp cj d u k) := by
  unfold applyJitterOp
  split
  · intro i j; exact blendPix_le255 _ _ _
  split
  · intro i j; exact blendPix_le255 _ _ _
  split
  · intro i j; exact blendPix_le255 _ _ _
  split
  · intro i j; exact ⟨castU8_le255 _, castU8_le255 _, castU8_le255 _⟩
  · exact hu

theorem colorJitterImage_le255 (cj : ColorJitter) (d : JitterDraws ℚ)
    (perm : List ℕ) (u : Image h w) (hu : imageLe255 u) :
    imageLe255 (colorJitterImage cj d perm u) := by
  unfold colorJitterImage
  induction perm generalizing u with
  | nil => exact hu
  | cons k ks ih => exact ih _ (applyJitterOp_le255 cj d u k hu)

/-! Claim theorems. -/

/-- C1 (counterexample): as stated, the claim would blend the saturation
jitter against the exact grayscale value; the kernel blends against the
uint8-truncated grayscale.  On the 1×1 image with pixel `(3, 1, 3)` the
grayscale is `1.8257`, so with saturation range `[0.2, 1.8]` and drawn
ratio `1/4` the kernel's red channel is `castU8(1/4*3 + 3/4*1) = 1` while
the claim's formula gives `castU8(1/4*3 + 3/4*1.8257) = 2`. -/
theorem C1_counterexample :
    (colorJitterImage (⟨none, none, some (1/5, 9/5), none⟩ : ColorJitter)
        (⟨0, 0, 1/4, 0, 0, 0⟩ : JitterDraws ℚ) [2]
        (fun i j => (3, 1, 3)) (0 : Fin 1) (0 : Fin 1)).1
      ≠ (saturationBlendSpec ((1 : ℚ)/4) (fun i j => (3, 1, 3) : Image 1 1) 0 0).1 := by
  have hluma : lumaCast (3, 1, 3) = 1 := by
    unfold lumaCast lumaVal
    apply floor_toNat_eval <;> norm_num
  have hk : (colorJitterImage (⟨none, none, some (1/5, 9/5), none⟩ : ColorJitter)
      (⟨0, 0, 1/4, 0, 0, 0⟩ : JitterDraws ℚ) [2]
      (fun i j => (3, 1, 3) : Image 1 1) 0 0).1 = 1 := by
    have hstep : colorJitterImage (⟨none, none, some (1/5, 9/5), none⟩ : ColorJitter)
        (⟨0, 0, 1/4, 0, 0, 0⟩ : JitterDraws ℚ) [2] (fun i j => (3, 1, 3) : Image 1 1)
        = saturationOp ((1:ℚ)/4) (fun i j => (3, 1, 3) : Image 1 1) := by
      simp [colorJitterImage, applyJitterOp]
    rw [hstep]
    show blendVal ((3:ℕ) : ℚ) ((lumaCast (3,1,3) : ℕ) : ℚ) ((1:ℚ)/4) = 1
    rw [hluma]
    unfold blendVal
    apply castU8_eval <;> norm_num
  have hsp : (saturationBlendSpec ((1 : ℚ)/4) (fun i j => (3, 1, 3) : Image 1 1) 0 0).1 = 2 := by
    show blendVal ((3:ℕ) : ℚ) (lumaVal (α := ℚ) (3,1,3)) ((1:ℚ)/4) = 2
    unfold blendVal lumaVal
    apply castU8_eval <;> norm_num
  rw [hk, hsp]
  omega

/-- C1 (amended): in the kernel emitted by `ColorJitter.generate_code`,
each of the brightness, contrast and saturation jitters replaces the image
by `clip(ratio*img + (1-ratio)*other, 0, 255)` cast back to the image's
dtype, with ratio drawn from the configured `[min, max]` range of that
jitter; `other` is `0` for brightness, the scalar mean of the exact
grayscale (`0.2989*R + 0.5870*G + 0.1140*B`) image for contrast, and the
per-pixel grayscale value truncated to the image's dtype and replicated
over the three channels for saturation. -/
theorem C1_blends (cj : ColorJitter) (d : JitterDraws ℚ) (u : Image h w)
    (lb ub lc uc ls us : ℚ)
    (hbr : cj.brightness = some (lb, ub))
    (hbr1 : lb ≤ d.rBright) (hbr2 : d.rBright ≤ ub)
    (hco : cj.contrast = some (lc, uc))
    (hco1 : lc ≤ d.rContrast) (hco2 : d.rContrast ≤ uc)
    (hsa : cj.saturation = some (ls, us))
    (hsa1 : ls ≤ d.rSat) (hsa2 : d.rSat ≤ us) :
    (applyJitterOp cj d u 0 = fun i j =>
      ((Int.floor (max 0 (min (d.rBright * ((u i j).1 : ℚ) + (1 - d.rBright) * 0) 255))).toNat,
       (Int.floor (max 0 (min (d.rBright * ((u i j).2.1 : ℚ) + (1 - d.rBright) * 0) 255))).toNat,
       (Int.floor (max 0 (min (d.rBright * ((u i j).2.2 : ℚ) + (1 - d.rBright) * 0) 255))).toNat))
    ∧ (applyJitterOp cj d u 1 = fun i j =>
      ((Int.floor (max 0 (min (d.rContrast * ((u i j).1 : ℚ)
          + (1 - d.rContrast) * ((∑ a, ∑ b, ((2989 : ℚ) / 10000 * ((u a b).1 : ℚ)
              + 5870 / 10000 * ((u a b).2.1 : ℚ) + 1140 / 10000 * ((u a b).2.2 : ℚ)))
            / ((h : ℚ) * (w : ℚ)))) 255))).toNat,
       (Int.floor (max 0 (min (d.rContrast * ((u i j).2.1 : ℚ)
          + (1 - d.rContrast) * ((∑ a, ∑ b, ((2989 : ℚ) / 10000 * ((u a b).1 : ℚ)
              + 5870 / 10000 * ((u a b).2.1 : ℚ) + 1140 / 10000 * ((u a b).2.2 : ℚ)))
            / ((h : ℚ) * (w : ℚ)))) 255))).toNat,
       (Int.floor (max 0 (min (d.rContrast * ((u i j).2.2 : ℚ)
          + (1 - d.rContrast) * ((∑ a, ∑ b, ((2989 : ℚ) / 10000 * ((u a b).1 : ℚ)
              + 5870 / 10000 * ((u a b).2.1 : ℚ) + 1140 / 10000 * ((u a b).2.2 : ℚ)))
            / ((h : ℚ) * (w : ℚ)))) 255))).toNat))
    ∧ (applyJitterOp cj d u 2 = fun i j =>
      ((Int.floor (max 0 (min (d.rSat * ((u i j).1 : ℚ)
          + (1 - d.rSat) * (((Int.floor ((2989 : ℚ) / 10000 * ((u i j).1 : ℚ)
              + 5870 / 10000 * ((u i j).2.1 : ℚ)
              + 1140 / 10000 * ((u i j).2.2 : ℚ))).toNat : ℕ) : ℚ)) 255))).toNat,
       (Int.floor (max 0 (min (d.rSat * ((u i j).2.1 : ℚ)
          + (1 - d.rSat) * (((Int.floor ((2989 : ℚ) / 10000 * ((u i j).1 : ℚ)
              + 5870 / 10000 * ((u i j).2.1 : ℚ)
              + 1140 / 10000 * ((u i j).2.2 : ℚ))).toNat : ℕ) : ℚ)) 255))).toNat,
       (Int.floor (max 0 (min (d.rSat * ((u i j).2.2 : ℚ)
          + (1 - d.rSat) * (((Int.floor ((2989 : ℚ) / 10000 * ((u i j).1 : ℚ)
              + 5870 / 10000 * ((u i j).2.1 : ℚ)
              + 1140 / 10000 * ((u i j).2.2 : ℚ))).toNat : ℕ) : ℚ)) 255))).toNat)) := by
  refine ⟨?_, ?_, ?_⟩
  · funext i j
    simp [applyJitterOp, hbr, brightnessOp, blendPix, blendVal, castU8]
  · funext i j
    simp [applyJitterOp, hco, contrastOp, blendPix, blendVal, castU8, contrastMean, lumaVal]
  · funext i j
    simp [applyJitterOp, hsa, saturationOp, blendPix, blendVal, castU8, lumaCast, lumaVal]

/-- C1 witness: the brightness conjunct of the amended theorem applied to
a concrete jitter configuration, draws and image. -/
theorem C1_blends_witness :
    applyJitterOp (⟨some (0, 2), some (0, 2), some (0, 2), none⟩ : ColorJitter)
        (⟨1, 1, 1, 0, 0, 0⟩ : JitterDraws ℚ) (fun i j => (0, 0, 0) : Image 1 1) 0 0 0
      = ((Int.floor (max 0 (min ((1 : ℚ) * ((0 : ℕ) : ℚ) + (1 - 1) * 0) 255))).toNat,
         (Int.floor (max 0 (min ((1 : ℚ) * ((0 : ℕ) : ℚ) + (1 - 1) * 0) 255))).toNat,
         (Int.floor (max 0 (min ((1 : ℚ) * ((0 : ℕ) : ℚ) + (1 - 1) * 0) 255))).toNat) := by
  have hth := C1_blends (⟨some (0, 2), some (0, 2), some (0, 2), none⟩ : ColorJitter)
      (⟨1, 1, 1, 0, 0, 0⟩ : JitterDraws ℚ) (fun i j => (0, 0, 0) : Image 1 1)
      0 2 0 2 0 2 rfl (by norm_num) (by norm_num) rfl (by norm_num) (by norm_num)
      rfl (by norm_num) (by norm_num)
  exact congrFun (congrFun hth.1 0) 0

/-- C2: when hue jitter is enabled and selected, the kernel scales the
image to `[0, 1]` (dividing the uint8 channels by 255), builds the 3×3
hue-rotation matrix from the angle `hue_factor * 2 * pi` with `hue_factor`
drawn from the configured range, replaces every pixel vector by the
matrix-vector product, then scales by 255, clips to `[0, 255]` and stores
the result as uint8. -/
theorem C2_hue_rotation (cj : ColorJitter) (lo up : ℚ) (hf : ℝ) (d : JitterDraws ℝ)
    (hcj : cj.hue = some (lo, up))
    (hlo : (lo : ℝ) ≤ hf) (hhi : hf ≤ (up : ℝ))
    (hc : d.cosA = Real.cos (hf * (2 * Real.pi)))
    (hs : d.sinA = Real.sin (hf * (2 * Real.pi)))
    (h13 : d.s13 = Real.sqrt (1 / 3))
    (u : Image h w) (hpix : imageLe255 u) :
    (∀ i j, 0 ≤ ((u i j).1 : ℝ) / 255 ∧ ((u i j).1 : ℝ) / 255 ≤ 1
        ∧ 0 ≤ ((u i j).2.1 : ℝ) / 255 ∧ ((u i j).2.1 : ℝ) / 255 ≤ 1
        ∧ 0 ≤ ((u i j).2.2 : ℝ) / 255 ∧ ((u i j).2.2 : ℝ) / 255 ≤ 1)
    ∧ applyJitterOp cj d u 3 = (fun i j =>
      ((Int.floor (max 0 (min (255 * (((u i j).1 : ℝ) / 255 * hueMatrixAt hf 0 0
          + ((u i j).2.1 : ℝ) / 255 * hueMatrixAt hf 0 1
          + ((u i j).2.2 : ℝ) / 255 * hueMatrixAt hf 0 2)) 255))).toNat,
       (Int.floor (max 0 (min (255 * (((u i j).1 : ℝ) / 255 * hueMatrixAt hf 1 0
          + ((u i j).2.1 : ℝ) / 255 * hueMatrixAt hf 1 1
          + ((u i j).2.2 : ℝ) / 255 * hueMatrixAt hf 1 2)) 255))).toNat,
       (Int.floor (max 0 (min (255 * (((u i j).1 : ℝ) / 255 * hueMatrixAt hf 2 0
          + ((u i j).2.1 : ℝ) / 255 * hueMatrixAt hf 2 1
          + ((u i j).2.2 : ℝ) / 255 * hueMatrixAt hf 2 2)) 255))).toNat)) := by
  constructor
  · intro i j
    obtain ⟨h1, h2, h3⟩ := hpix i j
    have c1 : ((u i j).1 : ℝ) ≤ 255 := by exact_mod_cast h1
    have c2 : ((u i j).2.1 : ℝ) ≤ 255 := by exact_mod_cast h2
    have c3 : ((u i j).2.2 : ℝ) ≤ 255 := by exact_mod_cast h3
    refine ⟨by positivity, ?_, by positivity, ?_, by positivity, ?_⟩ <;>
      rw [div_le_one (by norm_num)] <;> assumption
  · funext i j
    simp [applyJitterOp, hcj, hueOp, castU8, hueMatrixAt, hc, hs, h13]

/-- C2 witness: the scaling conjunct of the theorem applied to a concrete
hue configuration (`hue_factor = 0`) and a concrete pixel. -/
theorem C2_hue_rotation_witness :
    0 ≤ (((10 : ℕ)) : ℝ) / 255 ∧ ((10 : ℕ) : ℝ) / 255 ≤ 1
    ∧ 0 ≤ ((20 : ℕ) : ℝ) / 255 ∧ ((20 : ℕ) : ℝ) / 255 ≤ 1
    ∧ 0 ≤ ((30 : ℕ) : ℝ) / 255 ∧ ((30 : ℕ) : ℝ) / 255 ≤ 1 :=
  (C2_hue_rotation (⟨none, none, none, some (-(1/2), 1/2)⟩ : ColorJitter) (-(1/2)) (1/2) 0
    (⟨0, 0, 0, Real.cos (0 * (2 * Real.pi)), Real.sin (0 * (2 * Real.pi)),
      Real.sqrt (1 / 3)⟩ : JitterDraws ℝ)
    rfl (by norm_num) (by norm_num) rfl rfl rfl
    (fun i j => (10, 20, 30) : Image 1 1)
    (fun i j => ⟨by norm_num, by norm_num, by norm_num⟩)).1 0 0

/-- C4: for every environment of the selected dataset (environments and
per-environment datasets are parallel lists), `write` constructs one
`DatasetWriter` targeting `root/env.beton`, declaring exactly the two
fields `image` (RGB image field) and `label` (integer field), and
serializes that environment's dataset through `from_indexed_dataset` —
one container file per environment. -/
theorem C4_writer (d : MultiEnvDataset) (hlen : d.environments.length = d.datasets.length) :
    (write d).length = d.environments.length
    ∧ ∀ (k : ℕ) (hk : k < d.environments.length),
        (write d)[k]? = some
          ⟨⟨(d.datasets.get ⟨k, hlen ▸ hk⟩).root ++ "/" ++ d.environments.get ⟨k, hk⟩ ++ ".beton",
            [("image", FieldKind.RGBImageField), ("label", FieldKind.IntField)]⟩,
           (d.datasets.get ⟨k, hlen ▸ hk⟩).samples⟩ := by
  constructor
  · simp [write, List.length_zip, hlen]
  · intro k hk
    have hk2 : k < d.datasets.length := hlen ▸ hk
    have hzip : (d.environments.zip d.datasets)[k]?
        = some (d.environments.get ⟨k, hk⟩, d.datasets.get ⟨k, hk2⟩) := by
      rw [List.getElem?_zip_eq_some]
      exact ⟨by simp [List.getElem?_eq_getElem hk], by simp [List.getElem?_eq_getElem hk2]⟩
    simp [write, List.getElem?_map, hzip]

/-- C4 witness: the theorem applied to a one-environment dataset. -/
theorem C4_writer_witness :
    (write ⟨["env0"], [⟨"/data", [(1, 2)]⟩]⟩).length = 1
    ∧ (write ⟨["env0"], [⟨"/data", [(1, 2)]⟩]⟩)[0]?
        = some ⟨⟨"/data" ++ "/" ++ "env0" ++ ".beton",
            [("image", FieldKind.RGBImageField), ("label", FieldKind.IntField)]⟩, [(1, 2)]⟩ := by
  have hth := C4_writer ⟨["env0"], [⟨"/data", [(1, 2)]⟩]⟩ rfl
  exact ⟨hth.1, hth.2 0 (by norm_num)⟩

/-- C8: `_check_input` rejects a single negative number with `ValueError`
(in both the brightness/contrast/saturation and the hue configuration),
rejects an out-of-bound pair with `ValueError` and accepts an in-bound
pair, rejects any other value with `TypeError`; a range degenerating to
the identity (both ends equal to the center — the default `0`, a pair
`(1, 1)` for b/c/s, a pair `(0, 0)` for hue) is stored as `None`, and a
`None` parameter makes the corresponding arm of the emitted kernel leave
the image unchanged. -/
theorem C8_check_input (x a b : ℚ) (cj : ColorJitter) (d : JitterDraws ℚ) (u : Image h w) :
    (x < 0 → check_input (.num x) 1 0 none true = .error .valueError)
    ∧ (x < 0 → check_input (.num x) 0 (-(1/2)) (some (1/2)) false = .error .valueError)
    ∧ (¬ (0 ≤ a ∧ a ≤ b) → check_input (.pair a b) 1 0 none true = .error .valueError)
    ∧ (0 ≤ a ∧ a ≤ b → check_input (.pair a b) 1 0 none true
        = .ok (if a = 1 ∧ b = 1 then none else some (a, b)))
    ∧ (¬ (-(1/2) ≤ a ∧ a ≤ b ∧ b ≤ 1/2) →
        check_input (.pair a b) 0 (-(1/2)) (some (1/2)) false = .error .valueError)
    ∧ (-(1/2) ≤ a ∧ a ≤ b ∧ b ≤ 1/2 →
        check_input (.pair a b) 0 (-(1/2)) (some (1/2)) false
          = .ok (if a = 0 ∧ b = 0 then none else some (a, b)))
    ∧ check_input .other 1 0 none true = .error .typeError
    ∧ check_input .other 0 (-(1/2)) (some (1/2)) false = .error .typeError
    ∧ check_input (.num 0) 1 0 none true = .ok none
    ∧ check_input (.num 0) 0 (-(1/2)) (some (1/2)) false = .ok none
    ∧ check_input (.pair 1 1) 1 0 none true = .ok none
    ∧ check_input (.pair 0 0) 0 (-(1/2)) (some (1/2)) false = .ok none
    ∧ ColorJitter.init (.num 0) (.num 0) (.num 0) (.num 0) = .ok ⟨none, none, none, none⟩
    ∧ (cj.brightness = none → applyJitterOp cj d u 0 = u)
    ∧ (cj.contrast = none → applyJitterOp cj d u 1 = u)
    ∧ (cj.saturation = none → applyJitterOp cj d u 2 = u)
    ∧ (cj.hue = none → applyJitterOp cj d u 3 = u) := by
  refine ⟨?_, ?_, ?_, ?_, ?_, ?_, ?_, ?_, ?_, ?_, ?_, ?_, ?_, ?_, ?_, ?_, ?_⟩
  · intro hx; simp [check_input, hx]
  · intro hx; simp [check_input, hx]
  · intro hab
    simp only [check_input]
    rw [if_neg]
    simp only [decide_eq_true_eq]
    exact hab
  · intro hab
    simp only [check_input]
    rw [if_pos]
    simp only [decide_eq_true_eq]
    exact hab
  · intro hab
    simp only [check_input]
    rw [if_neg]
    simp only [decide_eq_true_eq]
    exact hab
  · intro hab
    simp only [check_input]
    rw [if_pos]
    simp only [decide_eq_true_eq]
    exact hab
  · rfl
  · rfl
  · norm_num [check_input]
  · norm_num [check_input]
  · norm_num [check_input]
  · norm_num [check_input]
  · norm_num [ColorJitter.init, check_input]
    rfl
  · intro hn; simp [applyJitterOp, hn]
  · intro hn; simp [applyJitterOp, hn]
  · intro hn; simp [applyJitterOp, hn]
  · intro hn; simp [applyJitterOp, hn]

/-- C8 witness: two arms of the theorem at concrete inputs — a negative
number is rejected, an in-bound non-degenerate pair is stored as a
range. -/
theorem C8_check_input_witness :
    check_input (.num (-1)) 1 0 none true = .error .valueError
    ∧ check_input (.pair (1/4) (3/4)) 1 0 none true = .ok (some (1/4, 3/4)) := by
  have hth := C8_check_input (-1) (1/4) (3/4) (⟨none, none, none, none⟩ : ColorJitter)
    (⟨0, 0, 0, 0, 0, 0⟩ : JitterDraws ℚ) (fun i j => (0, 0, 0) : Image 1 1)
  refine ⟨hth.1 (by norm_num), ?_⟩
  have hok := hth.2.2.2.1 ⟨by norm_num, by norm_num⟩
  rw [hok]
  norm_num

/-- C9: the kernels emitted by `ColorJitter` and `RandomGrayscale` operate
on the input batch and return it (their result does not depend on the
extra allocated argument), the batch keeps its length (its `h × w × 3`
shape and uint8 element type are fixed by the `Image` type), every
per-image jitter step maps a valid uint8 image to a valid uint8 image,
and every image of either kernel's output has all pixel values in
`[0, 255]`. -/
theorem C9_inplace_invariants (cj : ColorJitter) (g : JitterRng ℚ) (rg : RandomGrayscale)
    (rand : ℕ → ℚ) (images dst dst2 : List (Image h w))
    (hb : ∀ u ∈ images, imageLe255 u) :
    color_jitter cj g images dst = color_jitter cj g images dst2
    ∧ rgb_to_grayscale rg rand images dst = rgb_to_grayscale rg rand images dst2
    ∧ (color_jitter cj g images dst).length = images.length
    ∧ (rgb_to_grayscale rg rand images dst).length = images.length
    ∧ (∀ (d : JitterDraws ℚ) (u : Image h w) (k : ℕ),
        imageLe255 u → imageLe255 (applyJitterOp cj d u k))
    ∧ (∀ v ∈ color_jitter cj g images dst, imageLe255 v)
    ∧ (∀ v ∈ rgb_to_grayscale rg rand images dst, imageLe255 v) := by
  refine ⟨rfl, rfl, idxMap_length _ _ _, idxMap_length _ _ _,
    fun d u k hu => applyJitterOp_le255 cj d u k hu, ?_, ?_⟩
  · exact mem_idxMap _ imageLe255 images
      (fun i x hx => colorJitterImage_le255 cj (g.draws i) (g.perm i) x (hb x hx)) 0
  · refine mem_idxMap _ imageLe255 images (fun i x hx => ?_) 0
    by_cases hc : rand i < rg.p
    · simp only [hc, if_true]
      intro a b
      exact ⟨lumaCast_le255 _ (hb x hx a b), lumaCast_le255 _ (hb x hx a b),
        lumaCast_le255 _ (hb x hx a b)⟩
    · simp only [hc, if_false]
      exact hb x hx

/-- C9 witness: the theorem applied to a concrete one-image uint8 batch
and two different extra arguments. -/
theorem C9_inplace_invariants_witness :
    color_jitter (⟨none, none, none, none⟩ : ColorJitter)
        (⟨fun i => [0, 1, 2, 3], fun i => ⟨1, 1, 1, 1, 0, 1⟩⟩ : JitterRng ℚ)
        [(fun i j => (7, 8, 9) : Image 1 1)] []
      = color_jitter (⟨none, none, none, none⟩ : ColorJitter)
          (⟨fun i => [0, 1, 2, 3], fun i => ⟨1, 1, 1, 1, 0, 1⟩⟩ : JitterRng ℚ)
          [(fun i j => (7, 8, 9) : Image 1 1)] [(fun i j => (0, 0, 0) : Image 1 1)] :=
  (C9_inplace_invariants (⟨none, none, none, none⟩ : ColorJitter)
    (⟨fun i => [0, 1, 2, 3], fun i => ⟨1, 1, 1, 1, 0, 1⟩⟩ : JitterRng ℚ)
    (⟨1/10⟩ : RandomGrayscale) (fun i => 1)
    [(fun i j => (7, 8, 9) : Image 1 1)] [] [(fun i j => (0, 0, 0) : Image 1 1)]
    (by
      intro v hv
      simp only [List.mem_singleton] at hv
      subst hv
      intro i j
      exact ⟨by norm_num, by norm_num, by norm_num⟩)).1

/-- C10: for each image of the batch independently, the `RandomGrayscale`
kernel converts the image exactly when its uniform draw is below `p`
(leaving it unchanged otherwise); the converted image has, at every pixel,
all three channels equal to the luma `0.2989*R + 0.587*G + 0.114*B`
truncated to the image's dtype. -/
theorem C10_grayscale (rg : RandomGrayscale) (rand : ℕ → ℚ)
    (images dst : List (Image h w)) (k : ℕ) (hk : k < images.length) :
    (rgb_to_grayscale rg rand images dst)[k]?
      = some (if rand k < rg.p then grayscaleImage (images.get ⟨k, hk⟩)
          else images.get ⟨k, hk⟩)
    ∧ (∀ (u : Image h w) (i : Fin h) (j : Fin w), grayscaleImage u i j
        = ((Int.floor ((2989 : ℚ) / 10000 * ((u i j).1 : ℚ) + 5870 / 10000 * ((u i j).2.1 : ℚ)
              + 1140 / 10000 * ((u i j).2.2 : ℚ))).toNat,
           (Int.floor ((2989 : ℚ) / 10000 * ((u i j).1 : ℚ) + 5870 / 10000 * ((u i j).2.1 : ℚ)
              + 1140 / 10000 * ((u i j).2.2 : ℚ))).toNat,
           (Int.floor ((2989 : ℚ) / 10000 * ((u i j).1 : ℚ) + 5870 / 10000 * ((u i j).2.1 : ℚ)
              + 1140 / 10000 * ((u i j).2.2 : ℚ))).toNat))
    ∧ (∀ (u : Image h w) (i : Fin h) (j : Fin w),
        (grayscaleImage u i j).1 = (grayscaleImage u i j).2.1
        ∧ (grayscaleImage u i j).2.1 = (grayscaleImage u i j).2.2) := by
  refine ⟨?_, ?_, fun u i j => ⟨rfl, rfl⟩⟩
  · unfold rgb_to_grayscale
    rw [idxMap_getElem?]
    simp [List.getElem?_eq_getElem hk]
  · intro u i j
    simp [grayscaleImage, lumaCast, lumaVal]

/-- C10 witness: the theorem applied to a concrete one-image batch whose
draw falls below `p`. -/
theorem C10_grayscale_witness :
    (rgb_to_grayscale (⟨1/2⟩ : RandomGrayscale) (fun n => (0 : ℚ))
        [(fun i j => (0, 0, 0) : Image 1 1)] [])[0]?
      = some (if (0 : ℚ) < (1 : ℚ)/2 then grayscaleImage (fun i j => (0, 0, 0) : Image 1 1)
          else (fun i j => (0, 0, 0) : Image 1 1)) :=
  (C10_grayscale (⟨1/2⟩ : RandomGrayscale) (fun n => 0)
    [(fun i j => (0, 0, 0) : Image 1 1)] [] 0 (by norm_num)).1

/-- C3 (counterexample): the claim says all three operators advertise
parallelizability by setting `is_parallel` on the emitted callable, but
`ResizedCrop.generate_code` never sets it: at a concrete operator the
emitted callable carries the framework default `false`. -/
theorem C3_counterexample :
    (ResizedCrop.generate_code (h := 1) (w := 1) (s := 1) ⟨224, 1⟩
      (fun a b q => (0, 0, 0, 0)) (fun im r1 r2 c1 c2 dd => dd)).is_parallel = false := rfl

/-- C3 (amended): each operator declares its memory requirements via
`declare_state_and_memory` and emits its transform callable via
`generate_code`; `ColorJitter` and `RandomGrayscale` set `is_parallel =
True` on the emitted callable, while `ResizedCrop` leaves it unset, so its
callable is not advertised as parallel. -/
theorem C3_interface (cj : ColorJitter) (g : RandomGrayscale) (rc : ResizedCrop) {h w s : ℕ}
    (gcc : ℕ → ℕ → ℚ → ℕ × ℕ × ℕ × ℕ)
    (rcf : Image h w → ℕ → ℕ → ℕ → ℕ → Image s s → Image s s) (st : State) :
    (ColorJitter.generate_code (α := ℚ) (h := h) (w := w) cj).is_parallel = true
    ∧ (RandomGrayscale.generate_code (h := h) (w := w) g).is_parallel = true
    ∧ (rc.generate_code gcc rcf).is_parallel = false
    ∧ (ColorJitter.generate_code (α := ℚ) (h := h) (w := w) cj).kernel
        = (fun rng images dst => color_jitter cj rng images dst)
    ∧ (RandomGrayscale.generate_code (h := h) (w := w) g).kernel
        = (fun rand images dst => rgb_to_grayscale g rand images dst)
    ∧ (rc.generate_code gcc rcf).kernel = (fun im dst =>
        match gcc h w rc.ratio with
        | (i, j, hh, ww) => rcf im i (i + hh) j (j + ww) dst)
    ∧ cj.declare_state_and_memory st = ({ st with jit_mode := true }, ⟨st.shape, st.dtype⟩)
    ∧ g.declare_state_and_memory st = ({ st with jit_mode := true }, ⟨st.shape, st.dtype⟩)
    ∧ (st.jit_mode = true → rc.declare_state_and_memory st
        = some ({ st with shape := [rc.size, rc.size, 3] }, ⟨[rc.size, rc.size, 3], "uint8"⟩)) :=
  ⟨rfl, rfl, rfl, rfl, rfl, rfl, rfl, rfl,
   fun hj => by simp [ResizedCrop.declare_state_and_memory, hj]⟩

/-- C5: for every previous pipeline state, `declare_state_and_memory` of
`ColorJitter` and of `RandomGrayscale` returns that state with `jit_mode`
set to `True` and every other field (shape, dtype, device) unchanged
(lines 126 and 163 have no assert, so no side condition); `ResizedCrop`,
whose own assert requires `jit_mode`, returns — whenever it returns —
the previous state with `shape` replaced by `(size, size, 3)` and every
other field, `jit_mode` included, unchanged. -/
theorem C5_state_threading (cj : ColorJitter) (g : RandomGrayscale) (rc : ResizedCrop)
    (st : State) :
    (cj.declare_state_and_memory st).1 = { st with jit_mode := true }
    ∧ (cj.declare_state_and_memory st).1.jit_mode = true
    ∧ (cj.declare_state_and_memory st).1.shape = st.shape
    ∧ (cj.declare_state_and_memory st).1.dtype = st.dtype
    ∧ (cj.declare_state_and_memory st).1.device = st.device
    ∧ (g.declare_state_and_memory st).1 = { st with jit_mode := true }
    ∧ (g.declare_state_and_memory st).1.jit_mode = true
    ∧ (g.declare_state_and_memory st).1.shape = st.shape
    ∧ (g.declare_state_and_memory st).1.dtype = st.dtype
    ∧ (g.declare_state_and_memory st).1.device = st.device
    ∧ (st.jit_mode = true → rc.declare_state_and_memory st
        = some ({ st with shape := [rc.size, rc.size, 3] }, ⟨[rc.size, rc.size, 3], "uint8"⟩))
    ∧ (∀ st2 q, rc.declare_state_and_memory st = some (st2, q) →
        st2.shape = [rc.size, rc.size, 3] ∧ st2.jit_mode = st.jit_mode
        ∧ st2.device = st.device ∧ st2.dtype = st.dtype) := by
  refine ⟨rfl, rfl, rfl, rfl, rfl, rfl, rfl, rfl, rfl, rfl, ?_, ?_⟩
  · intro hjit
    simp [ResizedCrop.declare_state_and_memory, hjit]
  · intro st2 q hsome
    unfold ResizedCrop.declare_state_and_memory at hsome
    cases hj : st.jit_mode with
    | false =>
      rw [hj] at hsome
      simp at hsome
    | true =>
      rw [hj] at hsome
      simp at hsome
      obtain ⟨h1, h2⟩ := hsome
      subst h1
      exact ⟨rfl, rfl, rfl, rfl⟩

/-- C5 witness: the theorem applied at a concrete state whose `jit_mode`
is `false`: the returned state has `jit_mode = true`, so the flag is
genuinely set, not merely preserved. -/
theorem C5_state_threading_witness :
    (ColorJitter.declare_state_and_memory ⟨some (0, 1), none, none, none⟩
        ⟨false, 7, [32, 32, 3], "uint8"⟩).1.jit_mode = true
    ∧ (RandomGrayscale.declare_state_and_memory ⟨1/10⟩
        ⟨false, 7, [32, 32, 3], "uint8"⟩).1.jit_mode = true :=
  ⟨(C5_state_threading ⟨some (0, 1), none, none, none⟩ ⟨1/10⟩ ⟨224, 1⟩
      ⟨false, 7, [32, 32, 3], "uint8"⟩).2.1,
   (C5_state_threading ⟨some (0, 1), none, none, none⟩ ⟨1/10⟩ ⟨224, 1⟩
      ⟨false, 7, [32, 32, 3], "uint8"⟩).2.2.2.2.2.2.1⟩

/-- C6: for every previous pipeline state, each operator's
`declare_state_and_memory` requests exactly one allocation (the single
`AllocationQuery` of its result): `ColorJitter` and `RandomGrayscale`
one of the previous state's shape and dtype (unconditionally — lines 126
and 163 have no assert), and `ResizedCrop` — whenever its assert lets it
return — one of shape `(size, size, 3)` with dtype uint8, the only
allocation it ever requests. -/
theorem C6_alloc (cj : ColorJitter) (g : RandomGrayscale) (rc : ResizedCrop)
    (st : State) :
    (cj.declare_state_and_memory st).2 = ⟨st.shape, st.dtype⟩
    ∧ (cj.declare_state_and_memory st).2.shape = st.shape
    ∧ (cj.declare_state_and_memory st).2.dtype = st.dtype
    ∧ (g.declare_state_and_memory st).2 = ⟨st.shape, st.dtype⟩
    ∧ (g.declare_state_and_memory st).2.shape = st.shape
    ∧ (g.declare_state_and_memory st).2.dtype = st.dtype
    ∧ (st.jit_mode = true → ∃ st2, rc.declare_state_and_memory st
        = some (st2, ⟨[rc.size, rc.size, 3], "uint8"⟩))
    ∧ (∀ st2 q, rc.declare_state_and_memory st = some (st2, q) →
        q = ⟨[rc.size, rc.size, 3], "uint8"⟩) := by
  refine ⟨rfl, rfl, rfl, rfl, rfl, rfl, ?_, ?_⟩
  · intro hjit
    exact ⟨{ st with shape := [rc.size, rc.size, 3] },
      by simp [ResizedCrop.declare_state_and_memory, hjit]⟩
  · intro st2 q hsome
    unfold ResizedCrop.declare_state_and_memory at hsome
    cases hj : st.jit_mode with
    | false =>
      rw [hj] at hsome
      simp at hsome
    | true =>
      rw [hj] at hsome
      simp at hsome
      exact hsome.2.symm

/-- C6 witness: the ColorJitter allocation at a concrete state whose
`jit_mode` is `false`, so the conjunct is established with no jit-mode
side condition. -/
theorem C6_alloc_witness :
    (ColorJitter.declare_state_and_memory ⟨some (0, 1), none, none, none⟩
        ⟨false, 7, [32, 32, 3], "uint8"⟩).2 = ⟨[32, 32, 3], "uint8"⟩ :=
  (C6_alloc ⟨some (0, 1), none, none, none⟩ ⟨1/10⟩ ⟨224, 1⟩
    ⟨false, 7, [32, 32, 3], "uint8"⟩).1

/-- C7: the callable emitted by `ResizedCrop.generate_code` computes the
center-crop coordinates `(i, j, h, w)` from the input image's height,
width and the configured ratio, resizes exactly the window rows
`i..i+h` and columns `j..j+w` of the input into the pre-allocated
destination buffer, and returns that destination buffer (the value
`resize_crop` wrote) rather than the input. -/
theorem C7_resized_crop {h w s : ℕ} (rc : ResizedCrop)
    (gcc : ℕ → ℕ → ℚ → ℕ × ℕ × ℕ × ℕ)
    (rcf : Image h w → ℕ → ℕ → ℕ → ℕ → Image s s → Image s s)
    (im : Image h w) (dst : Image s s) :
    (rc.generate_code gcc rcf).kernel im dst
      = rcf im (gcc h w rc.ratio).1 ((gcc h w rc.ratio).1 + (gcc h w rc.ratio).2.2.1)
          (gcc h w rc.ratio).2.1 ((gcc h w rc.ratio).2.1 + (gcc h w rc.ratio).2.2.2) dst
    ∧ (∀ im2 : Image h w,
        (rc.generate_code gcc (fun im3 r1 r2 c1 c2 dd => dd)).kernel im2 dst = dst) := by
  constructor
  · rcases hq : gcc h w rc.ratio with ⟨i, j, hh, ww⟩
    simp [ResizedCrop.generate_code, hq]
  · intro im2
    rcases hq : gcc h w rc.ratio with ⟨i, j, hh, ww⟩
    simp [ResizedCrop.generate_code, hq]

end FFCVDB
